import Mathlib

set_option maxRecDepth 4000

/-!
Shallow embedding of the FireMon Policy Optimizer tickets report generator
(`po_tickets_report.py`) and proofs about its claimed behaviour.

The HTTP layer is abstracted by oracles: a page server `Nat → PageResponse`
for the paginated ticket search and a `lookup` function for the rule-detail
search.  Python dictionaries are modelled as structures of `Option` fields
(`none` = key absent) or association lists; Python truthiness of strings is
`s ≠ ""` and of option values is `Option.isSome` combined with the emptiness
checks that the source actually performs.
-/

namespace POReport

/-- Identity record: models the `assignee` / `completedBy` / `createdBy`
JSON objects with their `displayName` and `username` keys. -/
structure Person where
  displayName : Option String
  username : Option String
  deriving Repr, DecidableEq

/-- The nested `variables` bag of a ticket (po_tickets_report.py lines
376-380, 516-523).  `none` models an absent key. -/
structure Variables where
  deviceName : Option String
  deviceId : Option String
  policyDisplayName : Option String
  policyName : Option String
  ruleNumber : Option String
  ruleGuid : Option String
  policyGuid : Option String
  deriving Repr, DecidableEq

/-- A Policy Optimizer ticket as consumed by the report generator. -/
structure Ticket where
  businessKey : Option String
  createdDate : Option String
  completed : Option String
  status : Option String
  assignee : Option Person
  completedBy : Option Person
  createdBy : Option Person
  vars : Variables
  deriving Repr, DecidableEq

/-- An entry of a rule's `sources` / `destinations` / `apps` arrays; only the
`displayName` key is read by the program. -/
structure NetObj where
  displayName : Option String
  deriving Repr, DecidableEq

/-- Inner entry of a service group; only `formattedValue` is read. -/
structure SvcEntry where
  formattedValue : Option String
  deriving Repr, DecidableEq

/-- An entry of the rule's `services` array: each carries its own `services`
list (lines 432-435). -/
structure SvcGroup where
  services : List SvcEntry
  deriving Repr, DecidableEq

/-- Rule detail record returned by the secrule search (fields read at lines
413-460): structural configuration plus the open-ended `props` documentation
map, modelled as an association list (first binding wins, like a dict). -/
structure RuleDetails where
  ruleName : Option String
  sources : List NetObj
  destinations : List NetObj
  services : List SvcGroup
  apps : List NetObj
  ruleAction : Option String
  props : List (String × String)
  deriving Repr, DecidableEq

/-- `props.get(key, dflt)` on the association-list model of a dict. -/
def propsGet (props : List (String × String)) (key dflt : String) : String :=
  match props.find? (fun kv => kv.fst == key) with
  | some kv => kv.snd
  | none => dflt

/-- `props.keys()`. -/
def propsKeys (props : List (String × String)) : List String :=
  props.map Prod.fst

/-- Python `str.lower()` restricted to ASCII, which is all the program
compares (`'all'`, status names). -/
def pyLower (s : String) : String :=
  String.mk (s.data.map Char.toLower)

/-- Truthiness test `status_filter and status_filter.lower() != 'all'`
used at lines 203, 207 (and for the banner at line 220). -/
def statusFilterActive (statusFilter : Option String) : Bool :=
  match statusFilter with
  | some s => s != "" && pyLower s != "all"
  | none => false

/-- Truthiness test `if days_filter:` at line 202 (`0`/`None` are falsy). -/
def daysFilterActive (daysFilter : Option Nat) : Bool :=
  match daysFilter with
  | some d => d != 0
  | none => false

/-- The single SIQL filter expression built by `get_po_tickets`
(lines 201-210); written with `\x7b`, `\x7d`, `\x27` for `{`, `}`, `'`. -/
def get_po_tickets_query (workflowId : Int) (statusFilter : Option String)
    (daysFilter : Option Nat) : String :=
  if daysFilterActive daysFilter then
    if statusFilterActive statusFilter then
      "review \x7b (workflow = " ++ toString workflowId ++ " AND status = \x27"
        ++ statusFilter.getD "" ++ "\x27 AND created ~ DATE(\x27-"
        ++ toString (daysFilter.getD 0) ++ " days\x27)) \x7d"
    else
      "review \x7b (workflow = " ++ toString workflowId
        ++ " AND created ~ DATE(\x27-" ++ toString (daysFilter.getD 0)
        ++ " days\x27)) \x7d"
  else if statusFilterActive statusFilter then
    "review \x7b workflow = " ++ toString workflowId ++ " AND status = \x27"
      ++ statusFilter.getD "" ++ "\x27 \x7d"
  else
    "review \x7b workflow = " ++ toString workflowId ++ " \x7d"

/-- Result of `response.json()` on one ticket-search page: either the
`results` array or a body that is not valid JSON. -/
inductive ParseResult
  | ok (results : List Ticket)
  | jsonError
  deriving Repr, DecidableEq

/-- One page response of the paginated ticket search: HTTP 200 with a body,
a non-200 status, or a `requests` exception. -/
inductive PageResponse
  | success (parse : ParseResult)
  | httpError (code : Nat)
  | requestFailure
  deriving Repr, DecidableEq

/-- Outcome of the fetch stage.  `exitLogged` models `logging.error` +
`sys.exit(1)`; `exitUncaught` models process termination by an exception
that no handler catches (no log record is written on that path). -/
inductive FetchOutcome
  | tickets (all : List Ticket)
  | exitLogged
  | exitUncaught
  deriving Repr, DecidableEq

/-- `page_size = 100` (line 216). -/
def page_size : Nat := 100

/-- The pagination loop of `get_po_tickets` (lines 225-252), with explicit
fuel (`none` = fuel exhausted, never reached under the theorems' bounds).
On HTTP 200 the body is parsed; a JSON parse failure raises
`JSONDecodeError`, which the `except KeyError` handler at line 246 does NOT
catch, so the process dies without the handler's log record
(`exitUncaught`).  A non-200 status or a `RequestException` is logged and
exits (`exitLogged`).  An empty page stops before extending; a short page
extends then stops; a full page advances to the next page number. -/
def get_po_tickets_loop (server : Nat → PageResponse) :
    Nat → Nat → List Ticket → Option FetchOutcome
  | 0, _, _ => none
  | fuel + 1, page, acc =>
    match server page with
    | PageResponse.requestFailure => some FetchOutcome.exitLogged
    | PageResponse.httpError _ => some FetchOutcome.exitLogged
    | PageResponse.success ParseResult.jsonError => some FetchOutcome.exitUncaught
    | PageResponse.success (ParseResult.ok ts) =>
      if ts.isEmpty then some (FetchOutcome.tickets acc)
      else if ts.length < page_size then some (FetchOutcome.tickets (acc ++ ts))
      else get_po_tickets_loop server fuel (page + 1) (acc ++ ts)

/-- `get_po_tickets` starting at page 0 with an empty accumulator
(lines 214-215). -/
def get_po_tickets (server : Nat → PageResponse) (fuel : Nat) : Option FetchOutcome :=
  get_po_tickets_loop server fuel 0 []

/-- Response of the login call in `authenticate` (lines 140-165). -/
inductive AuthResponse
  | ok (hasToken : Bool)
  | httpError (code : Nat)
  | requestFailure
  deriving Repr, DecidableEq

/-- Outcome of `authenticate`: a token, or a logged fatal exit. -/
inductive AuthOutcome
  | token
  | exitLogged
  deriving Repr, DecidableEq

/-- `authenticate` (lines 140-165): every failure (request exception,
non-200, missing token key) is logged and exits. -/
def authenticate : AuthResponse → AuthOutcome
  | AuthResponse.requestFailure => AuthOutcome.exitLogged
  | AuthResponse.httpError _ => AuthOutcome.exitLogged
  | AuthResponse.ok true => AuthOutcome.token
  | AuthResponse.ok false => AuthOutcome.exitLogged

/-- Response of the secrule search issued by `get_rule_details`. -/
inductive DetailResponse
  | ok (results : List RuleDetails)
  | httpError (code : Nat)
  | exception
  deriving Repr, DecidableEq

/-- `get_rule_details` (lines 259-279): first result on success, `None` on
an empty result set, a non-200 status, or any exception (bare
`except: pass`) — a soft failure, the run continues. -/
def get_rule_details : DetailResponse → Option RuleDetails
  | DetailResponse.ok (r :: _) => some r
  | DetailResponse.ok [] => none
  | DetailResponse.httpError _ => none
  | DetailResponse.exception => none

/-- The guard deciding whether a rule-detail lookup is attempted for a
ticket: `(include_rule_details or include_rule_docs)` (line 304 / 568) and
`rule_guid and policy_guid and device_id != 'N/A'` (line 310 / 568), where
`device_id = variables.get('deviceId', 'N/A')`,
`rule_guid = variables.get('ruleGuid', '')`,
`policy_guid = variables.get('policyGuid', '')`. -/
def shouldEnrich (includeRuleDetails includeRuleDocs : Bool) (t : Ticket) : Bool :=
  let deviceId := t.vars.deviceId.getD "N/A"
  let ruleGuid := t.vars.ruleGuid.getD ""
  let policyGuid := t.vars.policyGuid.getD ""
  (includeRuleDetails || includeRuleDocs)
    && ruleGuid != "" && policyGuid != "" && deviceId != "N/A"

/-- Per-ticket enrichment (lines 304-313 / 568-569): returns the rule
details (if any) together with the list of lookup requests issued, so that
"no lookup is issued" is expressible. -/
def enrichTicket (lookup : String → String → String → Option RuleDetails)
    (includeRuleDetails includeRuleDocs : Bool) (t : Ticket) :
    Option RuleDetails × List (String × String × String) :=
  if shouldEnrich includeRuleDetails includeRuleDocs t then
    let deviceId := t.vars.deviceId.getD "N/A"
    let policyGuid := t.vars.policyGuid.getD ""
    let ruleGuid := t.vars.ruleGuid.getD ""
    (lookup deviceId policyGuid ruleGuid, [(deviceId, policyGuid, ruleGuid)])
  else (none, [])

/-- First pass of both renderers (lines 298-318 / 501-608): pair every
ticket with its optional rule details. -/
def scanTickets (lookup : String → String → String → Option RuleDetails)
    (includeRuleDetails includeRuleDocs : Bool) (tickets : List Ticket) :
    List (Ticket × Option RuleDetails) :=
  tickets.map (fun t => (t, (enrichTicket lookup includeRuleDetails includeRuleDocs t).fst))

/-- The `all_prop_fields` set (lines 295, 314-316 / 498, 603-606): union of
the documentation keys of every enriched ticket, modelled as a
duplicate-free list. -/
def allPropFields (scanned : List (Ticket × Option RuleDetails)) : List String :=
  (((scanned.filterMap Prod.snd).map (fun rd => propsKeys rd.props)).flatten).dedup

/-- `observedPropFields` composes the scan with the key collection for one
run. -/
def observedPropFields (lookup : String → String → String → Option RuleDetails)
    (includeRuleDetails includeRuleDocs : Bool) (tickets : List Ticket) : List String :=
  allPropFields (scanTickets lookup includeRuleDetails includeRuleDocs tickets)

/-- Python `sorted` on strings (lexicographic). -/
def sortStrings (l : List String) : List String :=
  List.insertionSort (fun a b : String => a ≤ b) l

/-- The documentation-column selection, identical in the CSV renderer
(lines 321-327, 332-333) and the HTML renderer (lines 614-621):
all observed keys sorted when no caller selection is given, else the
caller's list filtered to the observed keys. -/
def sortedPropFields (includeRuleDocs : Bool) (ruleDocFields : Option (List String))
    (observed : List String) : List String :=
  if includeRuleDocs then
    match ruleDocFields with
    | none => sortStrings observed
    | some sel => sel.filter (fun f => decide (f ∈ observed))
  else []

/-- The "Some requested doc fields not found" warning of the CSV renderer
(lines 329-331): the set `set(rule_doc_fields) - set(sorted_prop_fields)`,
printed only when the selection is truthy and was shortened.  The HTML
renderer has no counterpart. -/
def csvMissingWarning (ruleDocFields : Option (List String))
    (observed : List String) : List String :=
  match ruleDocFields with
  | none => []
  | some sel =>
    if sel != [] && (sortedPropFields true (some sel) observed).length < sel.length then
      (sel.filter (fun f => !(decide (f ∈ sortedPropFields true (some sel) observed)))).dedup
    else []

/-- Missing-field reports produced by a whole run: only the CSV pass prints
one (main lines 1624-1627 call `process_tickets_to_csv`; the HTML branch at
lines 1638-1641 has no missing-field output). -/
def runMissingWarnings (generateCsv : Bool) (ruleDocFields : Option (List String))
    (observed : List String) : List String :=
  if generateCsv then csvMissingWarning ruleDocFields observed else []

/-- `status = ticket.get('status', 'N/A')` (line 367 / 508). -/
def statusOf (t : Ticket) : String :=
  t.status.getD "N/A"

/-- `x.get('displayName', x.get('username', 'N/A'))` (lines 387, 391, 395). -/
def personDisplay (p : Person) : String :=
  p.displayName.getD (p.username.getD "N/A")

/-- The "Assignee/Completed By" value (lines 383-391 / 536-544): the
assignee's display name for `Review`, the completer's for `Completed` or
`Cancelled`, `N/A` otherwise or when the identity dict is absent/empty. -/
def assigneeCompletedOf (t : Ticket) : String :=
  let status := statusOf t
  if status == "Review" then
    match t.assignee with
    | some a => personDisplay a
    | none => "N/A"
  else if status == "Completed" || status == "Cancelled" then
    match t.completedBy with
    | some c => personDisplay c
    | none => "N/A"
  else "N/A"

/-- The "Created By" value (lines 394-395 / 547-548). -/
def createdByOf (t : Ticket) : String :=
  match t.createdBy with
  | some c => personDisplay c
  | none => "N/A"

/-- Join of display names with the `'Any'` fallback, used for sources and
destinations (lines 419-427 / 575-583). -/
def renderNames (objs : List NetObj) : String :=
  let names := objs.map (fun o => o.displayName.getD "N/A")
  if names.isEmpty then "Any" else String.intercalate ", " names

/-- Service rendering (lines 429-436 / 585-592): flatten each group's
entries' `formattedValue`s, join or fall back to `'Any'`. -/
def renderServices (groups : List SvcGroup) : String :=
  let names := (groups.map (fun g => g.services.map (fun e => e.formattedValue.getD "N/A"))).flatten
  if names.isEmpty then "Any" else String.intercalate ", " names

/-- Application rendering (lines 438-441 / 594-597): entries whose display
name is the literal `'Any'` are filtered out before joining; an empty
remainder falls back to `'Any'`. -/
def renderApps (apps : List NetObj) : String :=
  let names := (apps.filter (fun a => a.displayName != some "Any")).map
    (fun a => a.displayName.getD "N/A")
  if names.isEmpty then "Any" else String.intercalate ", " names

/-- `available_detail_fields` (line 287 / 491). -/
def available_detail_fields : List String :=
  ["source", "destination", "service", "application", "action"]

/-- Validation of the caller's detail-field selection (lines 288-292 /
492-495). -/
def validateDetailFields : Option (List String) → List String
  | none => available_detail_fields
  | some l => l.filter (fun f => decide (f ∈ available_detail_fields))

/-- Value of one rule-detail column for one row.  The same logic appears in
the CSV renderer (lines 417-448) and, via `ticket_data[field]` then
`ticket.get(field, 'N/A')`, in the HTML renderer (lines 574-600, 961-965):
with no rule details every selected column is `'N/A'`. -/
def detailValue (ruleDetails : Option RuleDetails) (field : String) : String :=
  match ruleDetails with
  | none => "N/A"
  | some rd =>
    if field == "source" then renderNames rd.sources
    else if field == "destination" then renderNames rd.destinations
    else if field == "service" then renderServices rd.services
    else if field == "application" then renderApps rd.apps
    else if field == "action" then rd.ruleAction.getD "N/A"
    else "N/A"

/-- Value of one documentation column in the CSV row (lines 450-460):
`props.get(field, 'N/A')` when details exist, `'N/A'` otherwise. -/
def csvDocValue (ruleDetails : Option RuleDetails) (field : String) : String :=
  match ruleDetails with
  | some rd => propsGet rd.props field "N/A"
  | none => "N/A"

/-- The `props` dict carried by one HTML row's ticket data: `{}` initially
(line 564), replaced by the rule's props only when docs are requested and
the lookup succeeded (lines 603-605). -/
def htmlPropsOf (includeRuleDocs : Bool) (ruleDetails : Option RuleDetails) :
    List (String × String) :=
  match ruleDetails with
  | some rd => if includeRuleDocs then rd.props else []
  | none => []

/-- The visible-cell truncation of the HTML doc cell (lines 970-972):
values longer than 100 characters are cut to 100 plus `'...'`. -/
def truncateDocValue (v : String) : String :=
  if v.length > 100 then v.take 100 ++ "..." else v

/-- One HTML documentation cell (lines 967-974), as the pair
(visible text, `title` hover attribute): the title always carries the
untruncated `props.get(field, 'N/A')`. -/
def htmlDocCell (props : List (String × String)) (field : String) : String × String :=
  let full := propsGet props field "N/A"
  (truncateDocValue full, full)

/-- Filesystem/email effects of the main program after the fetch stage. -/
inductive Effect
  | mkdirReports
  | writeFile (path : String)
  | sendEmail
  deriving Repr, DecidableEq

/-- Report filename construction (main lines 1602-1611). -/
def buildBaseFilename (workflowId : Int) (statusFilter : Option String)
    (daysFilter : Option Nat) (timestamp : String) : String :=
  let parts := ["po_tickets", "wf" ++ toString workflowId]
  let parts := parts ++ (match statusFilter with
    | some s => if s != "" && s != "all" then [pyLower s] else []
    | none => [])
  let parts := parts ++ (match daysFilter with
    | some d => if d != 0 then [toString d ++ "days"] else []
    | none => [])
  String.intercalate "_" (parts ++ [timestamp])

/-- Effect trace of the main program from the zero-ticket check onwards
(lines 1589-1649, 1704-1717): with no tickets the program exits at line
1591, before the reports directory is created (lines 1594-1597) and before
any report file is written; otherwise the directory is created when absent,
the selected reports are written, and email is attempted only when there is
at least one attachment. -/
def mainReportEffects (tickets : List Ticket)
    (reportsDirExists generateCsv generateHtml sendEmail : Bool)
    (workflowId : Int) (statusFilter : Option String) (daysFilter : Option Nat)
    (timestamp : String) : List Effect :=
  if tickets.isEmpty then []
  else
    let base := buildBaseFilename workflowId statusFilter daysFilter timestamp
    (if reportsDirExists then [] else [Effect.mkdirReports])
      ++ (if generateCsv then [Effect.writeFile ("po_reports/" ++ base ++ ".csv")] else [])
      ++ (if generateHtml then [Effect.writeFile ("po_reports/" ++ base ++ ".html")] else [])
      ++ (if sendEmail && (generateCsv || generateHtml) then [Effect.sendEmail] else [])

/-- Summary bucket counts (HTML lines 485-488 and main lines 1728-1730):
strict equality of `ticket.get('status')` with the bucket name. -/
def countStatus (tickets : List Ticket) (s : String) : Nat :=
  tickets.countP (fun t => t.status == some s)

/-- The "Total Tickets" figure (line 488 / 1725). -/
def totalCount (tickets : List Ticket) : Nat :=
  tickets.length

/-- All-`none` variables bag, for concrete witnesses. -/
def emptyVariables : Variables :=
  ⟨none, none, none, none, none, none, none⟩

/-- All-`none` ticket, for concrete witnesses. -/
def emptyTicket : Ticket :=
  ⟨none, none, none, none, none, none, none, emptyVariables⟩

/-- Sample rule details used by concrete witnesses. -/
def sampleDetails : RuleDetails :=
  ⟨some "rule-1", [], [], [], [], some "ACCEPT", [("owner", "alice")]⟩

/-- Contribution of one ticket to one status bucket. -/
def statusInd (t : Ticket) (s : String) : Nat :=
  if t.status == some s then 1 else 0

theorem countStatus_cons (t : Ticket) (l : List Ticket) (s : String) :
    countStatus (t :: l) s = countStatus l s + statusInd t s := by
  simp [countStatus, List.countP_cons, statusInd]

theorem statusInd_three_le_one (t : Ticket) :
    statusInd t "Review" + statusInd t "Completed" + statusInd t "Cancelled" ≤ 1 := by
  unfold statusInd
  by_cases h1 : (t.status == some "Review") = true
  · have e1 := beq_iff_eq.mp h1
    have e2 : (t.status == some "Completed") = false := by rw [e1]; decide
    have e3 : (t.status == some "Cancelled") = false := by rw [e1]; decide
    simp [h1, e2, e3]
  · by_cases h2 : (t.status == some "Completed") = true
    · have e2 := beq_iff_eq.mp h2
      have e3 : (t.status == some "Cancelled") = false := by rw [e2]; decide
      simp [h1, h2, e3]
    · by_cases h3 : (t.status == some "Cancelled") = true
      · simp [h1, h2, h3]
      · simp [h1, h2, h3]

theorem statusInd_eq_zero (t : Ticket) (s : String) (h : t.status ≠ some s) :
    statusInd t s = 0 := by
  simp [statusInd, beq_eq_false_iff_ne.mpr h]

theorem countStatus_three_le (tickets : List Ticket) :
    countStatus tickets "Review" + countStatus tickets "Completed"
      + countStatus tickets "Cancelled" ≤ totalCount tickets := by
  induction tickets with
  | nil => simp [countStatus, totalCount]
  | cons t l ih =>
    have h := statusInd_three_le_one t
    simp only [countStatus_cons, totalCount, List.length_cons] at *
    omega

theorem countStatus_three_lt (tickets : List Ticket) (t : Ticket) (hmem : t ∈ tickets)
    (h1 : t.status ≠ some "Review") (h2 : t.status ≠ some "Completed")
    (h3 : t.status ≠ some "Cancelled") :
    countStatus tickets "Review" + countStatus tickets "Completed"
      + countStatus tickets "Cancelled" < totalCount tickets := by
  induction tickets with
  | nil => cases hmem
  | cons x l ih =>
    rcases List.mem_cons.mp hmem with rfl | hmem'
    · have hle := countStatus_three_le l
      have z1 := statusInd_eq_zero t "Review" h1
      have z2 := statusInd_eq_zero t "Completed" h2
      have z3 := statusInd_eq_zero t "Cancelled" h3
      simp only [countStatus_cons, totalCount, List.length_cons] at *
      omega
    · have hlt := ih hmem'
      have hx := statusInd_three_le_one x
      simp only [countStatus_cons, totalCount, List.length_cons] at *
      omega

/-- C3: a ticket whose variables lack `deviceId`, or whose `ruleGuid` or
`policyGuid` is absent or empty, gets no rule-detail lookup, and every
rule-detail column and doc column of its CSV row and HTML row renders
`'N/A'`. -/
theorem c3_missing_ids_no_lookup_all_na
    (lookup : String → String → String → Option RuleDetails)
    (includeRuleDetails includeRuleDocs : Bool) (t : Ticket)
    (detailField docField : String)
    (hmiss : t.vars.deviceId = none
      ∨ t.vars.ruleGuid = none ∨ t.vars.ruleGuid = some ""
      ∨ t.vars.policyGuid = none ∨ t.vars.policyGuid = some "") :
    (enrichTicket lookup includeRuleDetails includeRuleDocs t).snd = []
    ∧ (enrichTicket lookup includeRuleDetails includeRuleDocs t).fst = none
    ∧ detailValue (enrichTicket lookup includeRuleDetails includeRuleDocs t).fst
        detailField = "N/A"
    ∧ csvDocValue (enrichTicket lookup includeRuleDetails includeRuleDocs t).fst
        docField = "N/A"
    ∧ htmlDocCell
        (htmlPropsOf includeRuleDocs
          (enrichTicket lookup includeRuleDetails includeRuleDocs t).fst)
        docField = ("N/A", "N/A") := by
  have hse : shouldEnrich includeRuleDetails includeRuleDocs t = false := by
    rcases hmiss with h | h | h | h | h <;> simp [shouldEnrich, h]
  have he : enrichTicket lookup includeRuleDetails includeRuleDocs t = (none, []) := by
    simp [enrichTicket, hse]
  rw [he]
  have hna : truncateDocValue "N/A" = "N/A" := by decide
  exact ⟨rfl, rfl, rfl, rfl, by simp [htmlDocCell, htmlPropsOf, propsGet, hna]⟩

/-- Ticket with an empty `ruleGuid`, for the C3 witness. -/
def c3Ticket : Ticket :=
  { emptyTicket with
      vars := { emptyVariables with
        deviceId := some "12"
        ruleGuid := some ""
        policyGuid := some "p-1" } }

/-- C3 witness: an empty `ruleGuid` suppresses the lookup even though the
lookup oracle would answer, and every column is `'N/A'`. -/
theorem c3_missing_ids_no_lookup_all_na_witness :
    (enrichTicket (fun _ _ _ => some sampleDetails) true true c3Ticket).snd = []
    ∧ detailValue (enrichTicket (fun _ _ _ => some sampleDetails) true true c3Ticket).fst
        "source" = "N/A"
    ∧ csvDocValue (enrichTicket (fun _ _ _ => some sampleDetails) true true c3Ticket).fst
        "owner" = "N/A"
    ∧ htmlDocCell
        (htmlPropsOf true
          (enrichTicket (fun _ _ _ => some sampleDetails) true true c3Ticket).fst)
        "owner" = ("N/A", "N/A") := by
  have h := c3_missing_ids_no_lookup_all_na (fun _ _ _ => some sampleDetails) true true
    c3Ticket "source" "owner" (Or.inr (Or.inr (Or.inl rfl)))
  exact ⟨h.1, h.2.2.1, h.2.2.2.1, h.2.2.2.2⟩

/-- C5: the Assignee/Completed By value is the assignee's display name
(falling back to username) when the status is `Review`, and the completer's
display name (falling back to username) when the status is `Completed` or
`Cancelled`. -/
theorem c5_assignee_completed_by (t u : Ticket) (a c : Person)
    (hts : statusOf t = "Review") (hta : t.assignee = some a)
    (hus : statusOf u = "Completed" ∨ statusOf u = "Cancelled")
    (huc : u.completedBy = some c) :
    assigneeCompletedOf t = a.displayName.getD (a.username.getD "N/A")
    ∧ assigneeCompletedOf u = c.displayName.getD (c.username.getD "N/A") := by
  constructor
  · simp [assigneeCompletedOf, hts, hta, personDisplay]
  · have b1 : (("Completed" : String) == "Review") = false := by decide
    have b2 : (("Cancelled" : String) == "Review") = false := by decide
    have b3 : (("Cancelled" : String) == "Completed") = false := by decide
    rcases hus with h | h <;>
      simp [assigneeCompletedOf, h, huc, personDisplay, b1, b2, b3]

/-- Review ticket for the C5 witness. -/
def c5ReviewTicket : Ticket :=
  { emptyTicket with
      status := some "Review"
      assignee := some ⟨some "Alice", none⟩ }

/-- Completed ticket for the C5 witness. -/
def c5CompletedTicket : Ticket :=
  { emptyTicket with
      status := some "Completed"
      completedBy := some ⟨none, some "bob"⟩ }

/-- C5 witness: a Review ticket surfaces the assignee's display name, a
Completed ticket surfaces the completer (username fallback). -/
theorem c5_assignee_completed_by_witness :
    assigneeCompletedOf c5ReviewTicket = "Alice"
    ∧ assigneeCompletedOf c5CompletedTicket = "bob" := by
  have h := c5_assignee_completed_by c5ReviewTicket c5CompletedTicket
    ⟨some "Alice", none⟩ ⟨none, some "bob"⟩ rfl rfl (Or.inl rfl) rfl
  exact ⟨h.1, h.2⟩

/-- C6: application entries whose display name is the literal `'Any'` are
removed before joining, so an all-`'Any'` application list renders as
`'Any'`; an empty source list renders as `'Any'`; a non-empty source list
renders as the comma-joined display names. -/
theorem c6_any_filtering (apps objs : List NetObj)
    (happs : ∀ a ∈ apps, a.displayName = some "Any") (hne : objs ≠ []) :
    renderApps apps = "Any"
    ∧ renderNames [] = "Any"
    ∧ renderNames objs
        = String.intercalate ", " (objs.map (fun o => o.displayName.getD "N/A")) := by
  refine ⟨?_, rfl, ?_⟩
  · have hf : apps.filter (fun a => a.displayName != some "Any") = [] := by
      refine List.filter_eq_nil_iff.mpr ?_
      intro a ha
      simp [happs a ha]
    simp [renderApps, hf]
  · have hm : (objs.map (fun o => o.displayName.getD "N/A")).isEmpty = false := by
      simp [List.isEmpty_iff, hne]
    simp [renderNames, hm]

/-- All-`'Any'` application list for the C6 witness. -/
def c6Apps : List NetObj := [⟨some "Any"⟩, ⟨some "Any"⟩]

/-- Non-empty source list for the C6 witness. -/
def c6Objs : List NetObj := [⟨some "web"⟩, ⟨none⟩]

/-- C6 witness at concrete lists. -/
theorem c6_any_filtering_witness :
    renderApps c6Apps = "Any"
    ∧ renderNames [] = "Any"
    ∧ renderNames c6Objs = "web, N/A" := by
  have h := c6_any_filtering c6Apps c6Objs (by decide) (by decide)
  refine ⟨h.1, h.2.1, ?_⟩
  rw [h.2.2]
  decide

/-- C7: with zero fetched tickets the program exits before creating the
reports directory or writing any CSV/HTML report file — its effect trace is
empty. -/
theorem c7_no_tickets_no_outputs
    (reportsDirExists generateCsv generateHtml sendEmail : Bool)
    (workflowId : Int) (statusFilter : Option String) (daysFilter : Option Nat)
    (timestamp : String) :
    mainReportEffects [] reportsDirExists generateCsv generateHtml sendEmail
      workflowId statusFilter daysFilter timestamp = [] := rfl

/-- C8: a documentation value longer than 100 characters is shown truncated
to its first 100 characters plus an ellipsis while the hover title keeps the
full value; a value of at most 100 characters is shown in full. -/
theorem c8_doc_value_truncation (props : List (String × String)) (field : String) :
    (100 < (propsGet props field "N/A").length →
      htmlDocCell props field
        = ((propsGet props field "N/A").take 100 ++ "...", propsGet props field "N/A"))
    ∧ ((propsGet props field "N/A").length ≤ 100 →
      htmlDocCell props field
        = (propsGet props field "N/A", propsGet props field "N/A")) := by
  constructor
  · intro h
    simp [htmlDocCell, truncateDocValue, h]
  · intro h
    have hn : ¬ (propsGet props field "N/A").length > 100 := by omega
    simp [htmlDocCell, truncateDocValue, hn]

/-- A 101-character value for the C8 witness. -/
def c8LongValue : String := String.mk (List.replicate 101 'a')

/-- C8 witness: a 101-character value is truncated with its full text in the
title; a short value passes through unchanged. -/
theorem c8_doc_value_truncation_witness :
    100 < (propsGet [("note", c8LongValue)] "note" "N/A").length
    ∧ htmlDocCell [("note", c8LongValue)] "note"
        = ((propsGet [("note", c8LongValue)] "note" "N/A").take 100 ++ "...",
           propsGet [("note", c8LongValue)] "note" "N/A")
    ∧ (propsGet [("s", "short")] "s" "N/A").length ≤ 100
    ∧ htmlDocCell [("s", "short")] "s"
        = (propsGet [("s", "short")] "s" "N/A", propsGet [("s", "short")] "s" "N/A") :=
  ⟨by decide, (c8_doc_value_truncation _ _).1 (by decide), by decide,
    (c8_doc_value_truncation _ _).2 (by decide)⟩

/-- C9: for a rule with no documentation properties the CSV renderer and
the HTML renderer agree — both emit `'N/A'` for every doc column. -/
theorem c9_empty_props_csv_html_agree (rd : RuleDetails) (field : String)
    (hempty : rd.props = []) :
    csvDocValue (some rd) field = "N/A"
    ∧ (htmlDocCell (htmlPropsOf true (some rd)) field).1 = "N/A"
    ∧ (htmlDocCell (htmlPropsOf true (some rd)) field).2 = "N/A"
    ∧ csvDocValue (some rd) field
        = (htmlDocCell (htmlPropsOf true (some rd)) field).1 := by
  have hna : truncateDocValue "N/A" = "N/A" := by decide
  simp [csvDocValue, htmlDocCell, htmlPropsOf, hempty, propsGet, hna]

/-- Rule details without documentation properties, for the C9 witness. -/
def c9Details : RuleDetails :=
  ⟨some "rule-9", [], [], [], [], some "ACCEPT", []⟩

/-- C9 witness at a concrete rule and field. -/
theorem c9_empty_props_csv_html_agree_witness :
    csvDocValue (some c9Details) "owner" = "N/A"
    ∧ (htmlDocCell (htmlPropsOf true (some c9Details)) "owner").1 = "N/A"
    ∧ csvDocValue (some c9Details) "owner"
        = (htmlDocCell (htmlPropsOf true (some c9Details)) "owner").1 := by
  have h := c9_empty_props_csv_html_agree c9Details "owner" rfl
  exact ⟨h.1, h.2.1, h.2.2.2⟩

/-- C10: a ticket whose status is none of Review/Completed/Cancelled keeps
`'N/A'` in the Assignee/Completed By column even when identity data is
present; an absent status renders `'N/A'`; the ticket counts toward the
total but toward none of the three buckets, so the buckets sum to less than
the total. -/
theorem c10_other_status (t u : Ticket) (tickets : List Ticket)
    (h1 : statusOf t ≠ "Review") (h2 : statusOf t ≠ "Completed")
    (h3 : statusOf t ≠ "Cancelled") (hmem : t ∈ tickets) (hu : u.status = none) :
    assigneeCompletedOf t = "N/A"
    ∧ statusOf u = "N/A"
    ∧ countStatus tickets "Review" + countStatus tickets "Completed"
        + countStatus tickets "Cancelled" < totalCount tickets := by
  refine ⟨?_, by simp [statusOf, hu], ?_⟩
  · have b1 : (statusOf t == "Review") = false := beq_eq_false_iff_ne.mpr h1
    have b2 : (statusOf t == "Completed") = false := beq_eq_false_iff_ne.mpr h2
    have b3 : (statusOf t == "Cancelled") = false := beq_eq_false_iff_ne.mpr h3
    simp [assigneeCompletedOf, b1, b2, b3]
  · have hs1 : t.status ≠ some "Review" := fun hcon => h1 (by simp [statusOf, hcon])
    have hs2 : t.status ≠ some "Completed" := fun hcon => h2 (by simp [statusOf, hcon])
    have hs3 : t.status ≠ some "Cancelled" := fun hcon => h3 (by simp [statusOf, hcon])
    exact countStatus_three_lt tickets t hmem hs1 hs2 hs3

/-- Ticket in a status outside the three buckets, with identity data
present, for the C10 witness. -/
def c10Ticket : Ticket :=
  { emptyTicket with
      status := some "Pending"
      assignee := some ⟨some "Alice", none⟩
      completedBy := some ⟨some "Bob", none⟩ }

/-- C10 witness: a `Pending` ticket renders `'N/A'`, a status-less ticket
renders `'N/A'`, and the three buckets sum below the total. -/
theorem c10_other_status_witness :
    assigneeCompletedOf c10Ticket = "N/A"
    ∧ statusOf emptyTicket = "N/A"
    ∧ countStatus [c10Ticket] "Review" + countStatus [c10Ticket] "Completed"
        + countStatus [c10Ticket] "Cancelled" < totalCount [c10Ticket] :=
  c10_other_status c10Ticket emptyTicket [c10Ticket] (by decide) (by decide) (by decide)
    (by simp) rfl

/-- C4: evaluation of the embedded error handling.  A ticket-search page
with HTTP 200 but an unparseable JSON body kills the process through an
uncaught exception — the `except KeyError` handler at line 246 does not
catch `JSONDecodeError`, so no error is logged on that path — while the
other fatal inputs exit with a logged error and the rule-detail failures are
soft (they return `None` and the run continues). -/
theorem c4_error_tier_eval :
    get_po_tickets (fun _ => PageResponse.success ParseResult.jsonError) 1
      = some FetchOutcome.exitUncaught
    ∧ get_po_tickets (fun _ => PageResponse.success ParseResult.jsonError) 1
      ≠ some FetchOutcome.exitLogged
    ∧ authenticate (AuthResponse.httpError 401) = AuthOutcome.exitLogged
    ∧ authenticate AuthResponse.requestFailure = AuthOutcome.exitLogged
    ∧ get_po_tickets (fun _ => PageResponse.httpError 500) 1 = some FetchOutcome.exitLogged
    ∧ get_po_tickets (fun _ => PageResponse.requestFailure) 1 = some FetchOutcome.exitLogged
    ∧ get_rule_details DetailResponse.exception = none
    ∧ get_rule_details (DetailResponse.httpError 503) = none := by
  decide

theorem mem_sortedPropFields_some (sel observed : List String) (y : String) :
    y ∈ sortedPropFields true (some sel) observed ↔ y ∈ sel ∧ y ∈ observed := by
  simp [sortedPropFields, List.mem_filter]

theorem sortedPropFields_some_sublist (sel observed : List String) :
    (sortedPropFields true (some sel) observed).Sublist sel :=
  List.filter_sublist sel

theorem mem_csvMissingWarning (sel observed : List String) (x : String) :
    x ∈ csvMissingWarning (some sel) observed ↔ x ∈ sel ∧ x ∉ observed := by
  by_cases hb : (sel != []
      && decide ((sortedPropFields true (some sel) observed).length < sel.length)) = true
  · have he : csvMissingWarning (some sel) observed
        = (sel.filter
            (fun f => !(decide (f ∈ sortedPropFields true (some sel) observed)))).dedup := by
      simp only [csvMissingWarning]
      rw [if_pos hb]
    rw [he]
    simp only [List.mem_dedup, List.mem_filter, Bool.not_eq_true', decide_eq_false_iff_not]
    constructor
    · rintro ⟨hxsel, hxn⟩
      exact ⟨hxsel, fun hxobs =>
        hxn ((mem_sortedPropFields_some sel observed x).mpr ⟨hxsel, hxobs⟩)⟩
    · rintro ⟨hxsel, hxobs⟩
      exact ⟨hxsel, fun hmem =>
        hxobs ((mem_sortedPropFields_some sel observed x).mp hmem).2⟩
  · have he : csvMissingWarning (some sel) observed = [] := by
      simp only [csvMissingWarning]
      rw [if_neg hb]
    rw [he]
    simp only [List.not_mem_nil, false_iff, not_and, not_not]
    intro hxsel
    have hne : (sel != []) = true := bne_iff_ne.mpr (List.ne_nil_of_mem hxsel)
    have hnlt : ¬ (sortedPropFields true (some sel) observed).length < sel.length := by
      intro hlt
      exact hb (by rw [hne]; simp [hlt])
    have heq : sortedPropFields true (some sel) observed = sel :=
      (sortedPropFields_some_sublist sel observed).eq_of_length
        (Nat.le_antisymm (sortedPropFields_some_sublist sel observed).length_le
          (Nat.le_of_not_lt hnlt))
    have hx : x ∈ sortedPropFields true (some sel) observed := by
      rw [heq]
      exact hxsel
    exact ((mem_sortedPropFields_some sel observed x).mp hx).2

/-- C1 (amended): with rule docs enabled, the doc-column list with no caller
selection is exactly the observed key set in sorted order; with a caller
selection it is the selection restricted, in order, to the observed keys; a
selected key never observed is dropped, and it is reported as missing
exactly when the CSV report is generated (the HTML-only path drops it
silently). -/
theorem c1_doc_columns (lookup : String → String → String → Option RuleDetails)
    (includeRuleDetails : Bool) (tickets : List Ticket)
    (sel : List String) (generateCsv : Bool) (x : String) :
    List.Sorted (· ≤ ·)
      (sortedPropFields true none (observedPropFields lookup includeRuleDetails true tickets))
    ∧ (sortedPropFields true none
        (observedPropFields lookup includeRuleDetails true tickets)).Nodup
    ∧ (x ∈ sortedPropFields true none
          (observedPropFields lookup includeRuleDetails true tickets)
        ↔ x ∈ observedPropFields lookup includeRuleDetails true tickets)
    ∧ (sortedPropFields true (some sel)
        (observedPropFields lookup includeRuleDetails true tickets)).Sublist sel
    ∧ (x ∈ sortedPropFields true (some sel)
          (observedPropFields lookup includeRuleDetails true tickets)
        ↔ x ∈ sel ∧ x ∈ observedPropFields lookup includeRuleDetails true tickets)
    ∧ (x ∈ runMissingWarnings generateCsv (some sel)
          (observedPropFields lookup includeRuleDetails true tickets)
        ↔ generateCsv = true ∧ x ∈ sel
          ∧ x ∉ observedPropFields lookup includeRuleDetails true tickets) := by
  have hperm : List.Perm
      (sortStrings (observedPropFields lookup includeRuleDetails true tickets))
      (observedPropFields lookup includeRuleDetails true tickets) :=
    List.perm_insertionSort _ _
  refine ⟨?_, ?_, ?_, sortedPropFields_some_sublist _ _, ?_, ?_⟩
  · exact List.sorted_insertionSort _ _
  · exact hperm.nodup_iff.mpr (List.nodup_dedup _)
  · exact hperm.mem_iff
  · exact mem_sortedPropFields_some _ _ _
  · cases generateCsv with
    | false => simp [runMissingWarnings]
    | true => simp [runMissingWarnings, mem_csvMissingWarning]

/-- Lookup oracle for the C1 counterexample. -/
def c1Lookup : String → String → String → Option RuleDetails :=
  fun _ _ _ => some sampleDetails

/-- Fully-identified ticket for the C1 counterexample. -/
def c1Ticket : Ticket :=
  { emptyTicket with
      vars := { emptyVariables with
        deviceId := some "5"
        ruleGuid := some "r-1"
        policyGuid := some "p-1" } }

/-- C1 counterexample: in an HTML-only run (CSV disabled) with rule docs
enabled and caller selection `["owner", "ghost"]`, the never-observed key
`"ghost"` is dropped from the columns but nothing is reported as missing —
refuting the claim that a dropped key is always reported. -/
theorem c1_doc_columns_counterexample :
    "ghost" ∈ ["owner", "ghost"]
    ∧ "ghost" ∉ sortedPropFields true (some ["owner", "ghost"])
        (observedPropFields c1Lookup false true [c1Ticket])
    ∧ runMissingWarnings false (some ["owner", "ghost"])
        (observedPropFields c1Lookup false true [c1Ticket]) = [] := by
  decide

theorem get_po_tickets_loop_concat (server : Nat → PageResponse)
    (pages : Nat → List Ticket) :
    ∀ (n p0 : Nat) (acc : List Ticket),
      (∀ i, i < n →
        server (p0 + i) = PageResponse.success (ParseResult.ok (pages (p0 + i)))
        ∧ (pages (p0 + i)).length = page_size) →
      server (p0 + n) = PageResponse.success (ParseResult.ok (pages (p0 + n))) →
      (pages (p0 + n)).length < page_size →
      get_po_tickets_loop server (n + 1) p0 acc
        = some (FetchOutcome.tickets
            (acc ++ ((List.range (n + 1)).map (fun i => pages (p0 + i))).flatten)) := by
  intro n
  induction n with
  | zero =>
    intro p0 acc _ hlast hshort
    rw [Nat.add_zero] at hlast hshort
    by_cases hpe : (pages p0).isEmpty = true
    · have hnil : pages p0 = [] := List.isEmpty_iff.mp hpe
      simp [get_po_tickets_loop, hlast, hpe, hnil, List.range_succ]
    · simp only [Bool.not_eq_true] at hpe
      simp [get_po_tickets_loop, hlast, hpe, hshort, List.range_succ]
  | succ n ih =>
    intro p0 acc hfull hlast hshort
    have h0 := hfull 0 (Nat.succ_pos n)
    rw [Nat.add_zero] at h0
    have hlen := h0.2
    have hne : (pages p0).isEmpty = false := by
      have hnil : pages p0 ≠ [] := by
        intro hcon
        rw [hcon] at hlen
        simp [page_size] at hlen
      simp [List.isEmpty_iff, hnil]
    have hnlt : ¬ (pages p0).length < page_size := by omega
    have hstep : get_po_tickets_loop server (n + 1 + 1) p0 acc
        = get_po_tickets_loop server (n + 1) (p0 + 1) (acc ++ pages p0) := by
      simp [get_po_tickets_loop, h0.1, hne, hnlt]
    rw [hstep]
    have hfull' : ∀ i, i < n →
        server (p0 + 1 + i) = PageResponse.success (ParseResult.ok (pages (p0 + 1 + i)))
        ∧ (pages (p0 + 1 + i)).length = page_size := by
      intro i hi
      have h := hfull (i + 1) (by omega)
      rwa [show p0 + (i + 1) = p0 + 1 + i by omega] at h
    have hlast' :
        server (p0 + 1 + n) = PageResponse.success (ParseResult.ok (pages (p0 + 1 + n))) := by
      rwa [show p0 + (n + 1) = p0 + 1 + n by omega] at hlast
    have hshort' : (pages (p0 + 1 + n)).length < page_size := by
      rwa [show p0 + (n + 1) = p0 + 1 + n by omega] at hshort
    rw [ih (p0 + 1) (acc ++ pages p0) hfull' hlast' hshort']
    have hfun : ((fun i => pages (p0 + i)) ∘ Nat.succ) = (fun i => pages (p0 + 1 + i)) := by
      funext i
      simp only [Function.comp]
      congr 1
      omega
    have hr : (List.range (n + 1 + 1)).map (fun i => pages (p0 + i))
        = pages p0 :: (List.range (n + 1)).map (fun i => pages (p0 + 1 + i)) := by
      rw [List.range_succ_eq_map, List.map_cons, List.map_map, hfun, Nat.add_zero]
    rw [hr, List.flatten_cons, List.append_assoc]

theorem get_po_tickets_loop_error (server : Nat → PageResponse)
    (pages : Nat → List Ticket) :
    ∀ (k p0 : Nat) (acc : List Ticket),
      (∀ i, i < k →
        server (p0 + i) = PageResponse.success (ParseResult.ok (pages (p0 + i)))
        ∧ (pages (p0 + i)).length = page_size) →
      ((∃ c, server (p0 + k) = PageResponse.httpError c)
        ∨ server (p0 + k) = PageResponse.requestFailure) →
      get_po_tickets_loop server (k + 1) p0 acc = some FetchOutcome.exitLogged := by
  intro k
  induction k with
  | zero =>
    intro p0 acc _ herr
    rcases herr with ⟨c, hc⟩ | hc <;>
      (rw [Nat.add_zero] at hc; simp [get_po_tickets_loop, hc])
  | succ k ih =>
    intro p0 acc hfull herr
    have h0 := hfull 0 (Nat.succ_pos k)
    rw [Nat.add_zero] at h0
    have hlen := h0.2
    have hne : (pages p0).isEmpty = false := by
      have hnil : pages p0 ≠ [] := by
        intro hcon
        rw [hcon] at hlen
        simp [page_size] at hlen
      simp [List.isEmpty_iff, hnil]
    have hnlt : ¬ (pages p0).length < page_size := by omega
    have hstep : get_po_tickets_loop server (k + 1 + 1) p0 acc
        = get_po_tickets_loop server (k + 1) (p0 + 1) (acc ++ pages p0) := by
      simp [get_po_tickets_loop, h0.1, hne, hnlt]
    rw [hstep]
    refine ih (p0 + 1) (acc ++ pages p0) ?_ ?_
    · intro i hi
      have h := hfull (i + 1) (by omega)
      rwa [show p0 + (i + 1) = p0 + 1 + i by omega] at h
    · rcases herr with ⟨c, hc⟩ | hc
      · exact Or.inl ⟨c, by rwa [show p0 + (k + 1) = p0 + 1 + k by omega] at hc⟩
      · exact Or.inr (by rwa [show p0 + (k + 1) = p0 + 1 + k by omega] at hc)

/-- C2: the fetcher builds one textual filter expression covering all four
presence combinations of the optional status and days filters, then returns
the concatenation of consecutive pages of size 100 from page 0, stopping at
the first empty-or-short page; an HTTP error or request failure on any page
terminates the process. -/
theorem c2_query_and_pagination (workflowId : Int) (s : String) (d : Nat)
    (hs1 : s ≠ "") (hs2 : pyLower s ≠ "all") (hd : d ≠ 0)
    (server : Nat → PageResponse) (pages : Nat → List Ticket) (n : Nat)
    (hfull : ∀ i, i < n →
      server i = PageResponse.success (ParseResult.ok (pages i))
      ∧ (pages i).length = page_size)
    (hlast : server n = PageResponse.success (ParseResult.ok (pages n)))
    (hshort : (pages n).length < page_size)
    (server2 : Nat → PageResponse) (pages2 : Nat → List Ticket) (k : Nat)
    (hfull2 : ∀ i, i < k →
      server2 i = PageResponse.success (ParseResult.ok (pages2 i))
      ∧ (pages2 i).length = page_size)
    (herr : (∃ c, server2 k = PageResponse.httpError c)
      ∨ server2 k = PageResponse.requestFailure) :
    get_po_tickets_query workflowId (some s) (some d)
      = "review \x7b (workflow = " ++ toString workflowId ++ " AND status = \x27" ++ s
        ++ "\x27 AND created ~ DATE(\x27-" ++ toString d ++ " days\x27)) \x7d"
    ∧ get_po_tickets_query workflowId none (some d)
      = "review \x7b (workflow = " ++ toString workflowId ++ " AND created ~ DATE(\x27-"
        ++ toString d ++ " days\x27)) \x7d"
    ∧ get_po_tickets_query workflowId (some s) none
      = "review \x7b workflow = " ++ toString workflowId ++ " AND status = \x27" ++ s
        ++ "\x27 \x7d"
    ∧ get_po_tickets_query workflowId none none
      = "review \x7b workflow = " ++ toString workflowId ++ " \x7d"
    ∧ get_po_tickets server (n + 1)
      = some (FetchOutcome.tickets (((List.range (n + 1)).map pages).flatten))
    ∧ get_po_tickets server2 (k + 1) = some FetchOutcome.exitLogged := by
  have hsa : statusFilterActive (some s) = true := by
    simp only [statusFilterActive, Bool.and_eq_true, bne_iff_ne]
    exact ⟨hs1, hs2⟩
  have hda : daysFilterActive (some d) = true := by
    simp only [daysFilterActive, bne_iff_ne]
    exact hd
  refine ⟨?_, ?_, ?_, ?_, ?_, ?_⟩
  · simp [get_po_tickets_query, hsa, hda]
  · simp [get_po_tickets_query, hda, statusFilterActive]
  · simp [get_po_tickets_query, hsa, daysFilterActive]
  · simp [get_po_tickets_query, statusFilterActive, daysFilterActive]
  · have h := get_po_tickets_loop_concat server pages n 0 []
      (by intro i hi; simpa using hfull i hi)
      (by simpa using hlast) (by simpa using hshort)
    simpa [get_po_tickets] using h
  · have h := get_po_tickets_loop_error server2 pages2 k 0 []
      (by intro i hi; simpa using hfull2 i hi)
      (by simpa using herr)
    simpa [get_po_tickets] using h

/-- A full first page for the C2 witness. -/
def c2Page0 : List Ticket := List.replicate 100 emptyTicket

/-- A short second page for the C2 witness. -/
def c2Page1 : List Ticket := [emptyTicket]

/-- Page contents for the C2 witness server. -/
def c2Pages : Nat → List Ticket :=
  fun p => if p = 0 then c2Page0 else c2Page1

/-- Well-behaved server for the C2 witness. -/
def c2Server : Nat → PageResponse :=
  fun p => PageResponse.success (ParseResult.ok (c2Pages p))

/-- Failing server for the C2 witness. -/
def c2ServerErr : Nat → PageResponse :=
  fun _ => PageResponse.httpError 404

/-- C2 witness: a concrete run with one full page and one short page
returns their concatenation, the four-way query has the expected text, and
an HTTP error on page 0 exits. -/
theorem c2_query_and_pagination_witness :
    get_po_tickets_query 2 (some "Review") (some 30)
      = "review \x7b (workflow = 2 AND status = \x27Review\x27 AND created ~ DATE(\x27-30 days\x27)) \x7d"
    ∧ get_po_tickets c2Server 2 = some (FetchOutcome.tickets (c2Page0 ++ c2Page1))
    ∧ get_po_tickets c2ServerErr 1 = some FetchOutcome.exitLogged := by
  have h := c2_query_and_pagination 2 "Review" 30 (by decide) (by decide) (by decide)
    c2Server c2Pages 1
    (by
      intro i hi
      interval_cases i
      exact ⟨rfl, by simp [c2Pages, c2Page0, page_size]⟩)
    rfl (by decide)
    c2ServerErr (fun _ => []) 0 (by intro i hi; omega) (Or.inl ⟨404, rfl⟩)
  refine ⟨h.1.trans (by decide), ?_, h.2.2.2.2.2⟩
  show get_po_tickets c2Server (1 + 1) = _
  rw [h.2.2.2.2.1]
  simp [List.range_succ, c2Pages]

end POReport
